import Mathlib

/-!
Verification of the gs_usb CAN adapter (`can/interfaces/gs_usb.py`).

The adapter bridges the generic `can.Message` abstraction to the native
frame format of a gs_usb USB CAN controller.  The file embeds, as plain
Lean functions:

* the device/library constants of the native frame layout,
* the transmit-path encoder (`GsUsbBus.send`, pure frame-building part),
* the receive-path decoder and poll (`GsUsbBus._recv_internal`),
* the constructor (`GsUsbBus.__init__`) over an abstract USB environment,
* the shutdown sequence (`GsUsbBus.shutdown`).

External collaborators (the gs_usb transport library and the generic bus
framework) are not part of the source file; they are modelled from the
spec as explicit data (an environment record and effect traces).
Python floats are idealised as exact rationals; Python ints as `Nat`/`Int`.
-/

namespace GsUsbSpec

/-- Modelled from the spec: extended-id marker bit of the native combined
identifier field, a fixed high bit above the 29-bit identifier range
(SocketCAN `CAN_EFF_FLAG`, re-exported by the gs_usb library). -/
def CAN_EFF_FLAG : ℕ := 0x80000000

/-- Modelled from the spec: remote-frame marker bit (`CAN_RTR_FLAG`). -/
def CAN_RTR_FLAG : ℕ := 0x40000000

/-- Modelled from the spec: error-frame marker bit (`CAN_ERR_FLAG`). -/
def CAN_ERR_FLAG : ℕ := 0x20000000

/-- Modelled from the spec: mask of the 29-bit extended identifier range
(`CAN_EFF_MASK`); clearing the marker bits recovers the raw arbitration
value. -/
def CAN_EFF_MASK : ℕ := 0x1FFFFFFF

/-- Modelled from the spec: FD bit of the native flags field
(`GS_CAN_FLAG_FD`), a fixed single-bit position. -/
def GS_CAN_FLAG_FD : ℕ := 2

/-- Modelled from the spec: bit-rate-switch bit of the native flags field
(`GS_CAN_FLAG_BRS`). -/
def GS_CAN_FLAG_BRS : ℕ := 4

/-- Modelled from the spec: error-state-indicator bit of the native flags
field (`GS_CAN_FLAG_ESI`). -/
def GS_CAN_FLAG_ESI : ℕ := 8

/-- Modelled from the spec: the reserved echo-identifier sentinel marking a
frame that is not an echo, i.e. a genuine bus reception
(`GS_USB_NONE_ECHO_ID`). -/
def GS_USB_NONE_ECHO_ID : ℕ := 0xFFFFFFFF

/-- Python `round` on an exact rational: round half to even. -/
def pyRound (q : ℚ) : ℤ :=
  if q - (q.floor : ℚ) < 1 / 2 then q.floor
  else if 1 / 2 < q - (q.floor : ℚ) then q.floor + 1
  else if q.floor % 2 = 0 then q.floor else q.floor + 1

/-- Python `int` on an exact rational: truncation toward zero. -/
def pyInt (q : ℚ) : ℤ :=
  q.num.tdiv (q.den : ℤ)

/-- Embeds line 127 of `GsUsbBus._recv_internal`:
`timeout_ms = round(timeout * 1000) if timeout else 1`.
`none` is Python `None`; a present value `0` is falsy in Python, so both
normalize to `1`. -/
def timeout_ms (timeout : Option ℚ) : ℤ :=
  match timeout with
  | none => 1
  | some t => if t = 0 then 1 else pyRound (t * 1000)

/-- Modelled from the spec: the Native Frame of the gs_usb transport
library (`GsUsbFrame`): a combined identifier with marker bits OR-ed on
top of the arbitration value, a flags field with FD/BRS/ESI bits, payload
bytes with a declared length, an echo identifier, and a microsecond
integer timestamp. -/
structure GsUsbFrame where
  can_id : ℕ
  flags : ℕ
  length : ℕ
  data : List ℕ
  echo_id : ℕ
  timestamp_us : ℤ
  deriving DecidableEq, Repr

/-- Modelled from the spec: the library constructor
`GsUsbFrame(can_id=…, is_fd=…, brs=…, esi=…, data=…)` used by `send`:
stores the combined identifier, packs the three flag bits, stores the
payload with its length, and leaves the echo identifier and timestamp at
their defaults. -/
def GsUsbFrame.ofSend (can_id : ℕ) (is_fd brs esi : Bool) (data : List ℕ) : GsUsbFrame :=
  { can_id := can_id
    flags :=
      (if is_fd then GS_CAN_FLAG_FD else 0) |||
      (if brs then GS_CAN_FLAG_BRS else 0) |||
      (if esi then GS_CAN_FLAG_ESI else 0)
    length := data.length
    data := data
    echo_id := 0
    timestamp_us := 0 }

/-- Modelled from the spec: the library accessor recovering the raw
arbitration value by clearing the marker bits. -/
def GsUsbFrame.arbitration_id (f : GsUsbFrame) : ℕ :=
  f.can_id &&& CAN_EFF_MASK

/-- Modelled from the spec: the extended-id marker bit test. -/
def GsUsbFrame.is_extended_id (f : GsUsbFrame) : Bool :=
  decide (f.can_id &&& CAN_EFF_FLAG ≠ 0)

/-- Modelled from the spec: the remote-frame marker bit test. -/
def GsUsbFrame.is_remote_frame (f : GsUsbFrame) : Bool :=
  decide (f.can_id &&& CAN_RTR_FLAG ≠ 0)

/-- Modelled from the spec: the error-frame marker bit test. -/
def GsUsbFrame.is_error_frame (f : GsUsbFrame) : Bool :=
  decide (f.can_id &&& CAN_ERR_FLAG ≠ 0)

/-- Modelled from the spec: the library accessor converting the
microsecond integer timestamp to seconds. -/
def GsUsbFrame.timestamp (f : GsUsbFrame) : ℚ :=
  (f.timestamp_us : ℚ) / 1000000

/-- Modelled from the spec: the Generic Message (`can.Message`) at the
abstraction boundary; the constructor stores each attribute verbatim. -/
structure Message where
  timestamp : ℚ := 0
  arbitration_id : ℕ := 0
  is_extended_id : Bool := true
  is_remote_frame : Bool := false
  is_error_frame : Bool := false
  channel : Option String := none
  dlc : ℕ := 0
  data : List ℕ := []
  is_rx : Bool := true
  is_fd : Bool := false
  bitrate_switch : Bool := false
  error_state_indicator : Bool := false
  deriving DecidableEq, Repr

/-- Embeds lines 82-91 of `GsUsbBus.send`: starting from the raw
arbitration identifier, OR in the extended, remote and error marker bits
when the corresponding message flag is set. -/
def encode_can_id (arb : ℕ) (ext rtr err : Bool) : ℕ :=
  let c := arb
  let c := if ext then c ||| CAN_EFF_FLAG else c
  let c := if rtr then c ||| CAN_RTR_FLAG else c
  let c := if err then c ||| CAN_ERR_FLAG else c
  c

/-- Embeds the pure frame-building part of `GsUsbBus.send`
(lines 82-95): build the combined identifier, construct the native frame
with the FD/BRS/ESI flags and the payload, and set the microsecond
timestamp by truncation. -/
def sendFrame (msg : Message) : GsUsbFrame :=
  let frame := GsUsbFrame.ofSend
    (encode_can_id msg.arbitration_id msg.is_extended_id msg.is_remote_frame msg.is_error_frame)
    msg.is_fd msg.bitrate_switch msg.error_state_indicator msg.data
  { frame with timestamp_us := pyInt (msg.timestamp * 1000000) }

/-- Embeds lines 131-144 of `GsUsbBus._recv_internal`: decode one native
frame into a `can.Message`, slicing the payload to the declared length,
classifying reception by comparing the echo identifier with the sentinel,
and unpacking the FD/BRS/ESI bits by truthiness of the masked flags. -/
def recvMessage (channel : Option String) (f : GsUsbFrame) : Message :=
  { timestamp := f.timestamp
    arbitration_id := f.arbitration_id
    is_extended_id := f.is_extended_id
    is_remote_frame := f.is_remote_frame
    is_error_frame := f.is_error_frame
    channel := channel
    dlc := f.length
    data := f.data.take f.length
    is_rx := decide (f.echo_id = GS_USB_NONE_ECHO_ID)
    is_fd := decide (f.flags &&& GS_CAN_FLAG_FD ≠ 0)
    bitrate_switch := decide (f.flags &&& GS_CAN_FLAG_BRS ≠ 0)
    error_state_indicator := decide (f.flags &&& GS_CAN_FLAG_ESI ≠ 0) }

/-- Modelled from the spec: an error value of the underlying USB
transport (an exception raised by the external library). -/
structure UsbError where
  code : ℕ
  deriving DecidableEq, Repr

/-- Modelled from the spec: the outcome of one bounded transport read
(the injected `read` capability): it may return a frame, report that no
frame arrived, or raise a transport exception. -/
inductive ReadResult where
  | throws (e : UsbError)
  | noFrame
  | frame (f : GsUsbFrame)

/-- Embeds `GsUsbBus._recv_internal` (lines 102-146) over an abstract
transport read: normalize the timeout, issue one read with the normalized
wait, return `(none, false)` on a falsy read result, and decode the frame
otherwise.  The source wraps nothing in an exception handler, so a read
that throws propagates as an error. -/
def recv_internal (read : ℤ → ReadResult) (channel : Option String)
    (timeout : Option ℚ) : Except UsbError (Option Message × Bool) :=
  match read (timeout_ms timeout) with
  | .throws e => .error e
  | .noFrame => .ok (none, false)
  | .frame f => .ok (some (recvMessage channel f), false)

/-- Observable calls the constructor makes on its collaborators, in
order: device enumeration (`GsUsb.scan`), targeted lookup
(`GsUsb.find`), a bitrate application (`set_bitrate`, with its `data`
phase selector), the device start command, and the base-class
registration (`super().__init__`). -/
inductive Effect where
  | scan
  | find (bus address : Option ℕ)
  | set_bitrate (bitrate : ℕ) (data : Bool)
  | start (flags : Option ℕ)
  | base_init
  deriving DecidableEq, Repr

/-- Outcome of a failed construction.  The first three constructors
correspond to the three explicit `raise CanInitializationError` sites of
`GsUsbBus.__init__`; `usb` is an exception of the external transport
library propagating out of the constructor uncaught. -/
inductive InitError where
  | mutualExclusion
  | deviceIndexNotFound (index found : ℕ)
  | deviceChannelNotFound (channel : String)
  | usb (e : UsbError)
  deriving DecidableEq, Repr

/-- Whether a failed construction surfaced as the repository's
`CanInitializationError` class: true exactly for the constructor's own
three raise sites, false for an uncaught transport exception. -/
def InitError.isCanInitializationError : InitError → Bool
  | .usb _ => false
  | _ => true

/-- The message string attached to each constructor raise site, as in the
source f-strings. -/
def InitError.message : InitError → String
  | .mutualExclusion => "index and bus/address cannot be used simultaneously"
  | .deviceIndexNotFound i n =>
      "Cannot find device " ++ toString i ++ ". Devices found: " ++ toString n
  | .deviceChannelNotFound ch => "Cannot find device " ++ ch
  | .usb e => "USBError " ++ toString e.code

/-- Modelled from the spec: the injected USB transport capability the
constructor drives — enumeration, targeted lookup, bitrate application
and the start command; devices are opaque handles (`ℕ`).  The fallible
operations return `Except` to model transport exceptions. -/
structure UsbEnv where
  scan : List ℕ
  find : Option ℕ → Option ℕ → Option ℕ
  set_bitrate : ℕ → ℕ → Bool → Except UsbError Unit
  start : ℕ → Option ℕ → Except UsbError Unit

/-- The state a successful construction produces (lines 56-58 of the
source): the selected device handle and the channel label. -/
structure Session where
  gs_usb : ℕ
  channel_info : String
  deriving DecidableEq, Repr

/-- Embeds the Python truthiness expression `bus or address` (line 39):
the value of `bus` when it is truthy (present and nonzero), else the
value of `address`. -/
def busOr (bus address : Option ℕ) : Option ℕ :=
  match bus with
  | some b => if b ≠ 0 then some b else address
  | none => address

/-- Embeds lines 60-70 of `GsUsbBus.__init__` given the selected device:
apply the nominal bitrate, apply the data-phase bitrate only when
`data_bitrate` is present, issue the start command, then run the
base-class registration.  No call is wrapped in an exception handler, so
a transport failure propagates as `InitError.usb`.  The effect trace
records the collaborator calls made, including the failing one. -/
def configure (env : UsbEnv) (dev : ℕ) (channel : String) (bitrate : ℕ)
    (data_bitrate : Option ℕ) (flags : Option ℕ) (tr : List Effect) :
    Except InitError Session × List Effect :=
  let tr := tr ++ [Effect.set_bitrate bitrate false]
  match env.set_bitrate dev bitrate false with
  | .error e => (.error (.usb e), tr)
  | .ok _ =>
    let next : Except InitError Unit × List Effect :=
      match data_bitrate with
      | none => (.ok (), tr)
      | some db =>
        match env.set_bitrate dev db true with
        | .error e => (.error (.usb e), tr ++ [Effect.set_bitrate db true])
        | .ok _ => (.ok (), tr ++ [Effect.set_bitrate db true])
    match next with
    | (.error e, tr) => (.error e, tr)
    | (.ok _, tr) =>
      match env.start dev flags with
      | .error e => (.error (.usb e), tr ++ [Effect.start flags])
      | .ok _ =>
        (.ok { gs_usb := dev, channel_info := channel },
         tr ++ [Effect.start flags, Effect.base_init])

/-- Embeds `GsUsbBus.__init__` (lines 18-70) over an abstract USB
environment.  Selection mirrors the source exactly: the mutual-exclusion
guard tests `(index is not None) and ((bus or address) is not None)`;
the ordinal path enumerates and rejects an out-of-range index reporting
the index and the discovered count; the lookup path uses `find` and
rejects a missing device; the surviving device is then configured. -/
def gsUsbBus_init (env : UsbEnv) (channel : String) (bitrate : ℕ)
    (data_bitrate : Option ℕ) (index : Option ℕ) (bus address : Option ℕ)
    (flags : Option ℕ) : Except InitError Session × List Effect :=
  if index.isSome ∧ (busOr bus address).isSome then
    (.error .mutualExclusion, [])
  else
    match index with
    | some i =>
      if env.scan.length ≤ i then
        (.error (.deviceIndexNotFound i env.scan.length), [Effect.scan])
      else
        configure env (env.scan.getD i 0) channel bitrate data_bitrate flags [Effect.scan]
    | none =>
      match env.find bus address with
      | none => (.error (.deviceChannelNotFound channel), [Effect.find bus address])
      | some d => configure env d channel bitrate data_bitrate flags [Effect.find bus address]

/-- Observable calls of `GsUsbBus.shutdown`: the base-class shutdown
(framework deregistration, modelled from the spec) and the device stop
command. -/
inductive ShutdownEffect where
  | base_shutdown
  | stop
  deriving DecidableEq, Repr

/-- Embeds `GsUsbBus.shutdown` (lines 148-150): run the base-class
shutdown first, then issue the device stop command.  The sequence does
not inspect the device's running state. -/
def gsUsbBus_shutdown (running : Bool) : List ShutdownEffect :=
  [ShutdownEffect.base_shutdown, ShutdownEffect.stop]

/-- Test environment: no device attached; all device operations succeed. -/
def envNoDevices : UsbEnv :=
  { scan := []
    find := fun _ _ => none
    set_bitrate := fun _ _ _ => .ok ()
    start := fun _ _ => .ok () }

/-- Test environment: one device (handle 7), reachable by scan and find;
all device operations succeed. -/
def envOneDevice : UsbEnv :=
  { scan := [7]
    find := fun _ _ => some 7
    set_bitrate := fun _ _ _ => .ok ()
    start := fun _ _ => .ok () }

/-- Test environment: one device (handle 7), but every bitrate
application raises transport error 5. -/
def envBitrateFails : UsbEnv :=
  { scan := [7]
    find := fun _ _ => some 7
    set_bitrate := fun _ _ _ => .error ⟨5⟩
    start := fun _ _ => .ok () }

/-- The three marker bits a message's boolean flags contribute to the
combined identifier, as one OR of fixed constants. -/
def markerOr (ext rtr err : Bool) : ℕ :=
  (if ext then CAN_EFF_FLAG else 0) |||
    ((if rtr then CAN_RTR_FLAG else 0) ||| (if err then CAN_ERR_FLAG else 0))

/-- Concrete message used to instantiate the round-trip theorem. -/
def mWitness : Message :=
  { arbitration_id := 0x12345
    is_extended_id := true
    is_remote_frame := false
    is_error_frame := false
    is_fd := true
    bitrate_switch := true
    error_state_indicator := false
    data := [1, 2, 3]
    timestamp := 0 }

/-- Concrete native frame used to instantiate the decoder theorems: three
payload bytes in the buffer but a declared length of two. -/
def fWitness : GsUsbFrame :=
  { can_id := 0x123
    flags := 0
    length := 2
    data := [17, 34, 51]
    echo_id := 0xFFFFFFFF
    timestamp_us := 0 }

theorem rat_floor_eq_intFloor (q : ℚ) : q.floor = ⌊q⌋ := by
  rw [Rat.floor_def', Rat.floor_def]

theorem pyRound_intCast (z : ℤ) : pyRound ((z : ℤ) : ℚ) = z := by
  unfold pyRound
  rw [rat_floor_eq_intFloor, Int.floor_intCast]
  norm_num

theorem one_le_pyRound (q : ℚ) (h : 1 / 2 < q) : 1 ≤ pyRound q := by
  have h0 : (0 : ℚ) ≤ q := le_of_lt (lt_trans (by norm_num) h)
  have hf0 : 0 ≤ ⌊q⌋ := Int.floor_nonneg.2 h0
  have hfl : ((⌊q⌋ : ℤ) : ℚ) ≤ q := Int.floor_le q
  unfold pyRound
  rw [rat_floor_eq_intFloor]
  split_ifs with h1 h2 h3
  · have hq : (0 : ℚ) < (⌊q⌋ : ℚ) := by linarith
    have : 0 < ⌊q⌋ := by exact_mod_cast hq
    omega
  · omega
  · have hge : ¬ (q - (⌊q⌋ : ℚ) < 1 / 2) := h1
    push_neg at hge
    have hq : (0 : ℚ) < (⌊q⌋ : ℚ) := by linarith
    have : 0 < ⌊q⌋ := by exact_mod_cast hq
    omega
  · omega

theorem testBit_false_of_lt (a i j : ℕ) (h : a < 2 ^ i) (hij : i ≤ j) :
    a.testBit j = false :=
  Nat.testBit_lt_two_pow (lt_of_lt_of_le h (Nat.pow_le_pow_right (by norm_num) hij))

theorem or_and_mask_29 (a b : ℕ) (ha : a < 2 ^ 29)
    (hb : ∀ i, i < 29 → b.testBit i = false) :
    (a ||| b) &&& (2 ^ 29 - 1) = a := by
  rw [Nat.and_pow_two_sub_one_eq_mod]
  apply Nat.eq_of_testBit_eq
  intro i
  rw [Nat.testBit_mod_two_pow, Nat.testBit_or]
  by_cases h : i < 29
  · simp [h, hb i h]
  · simp [h, testBit_false_of_lt a 29 i ha (le_of_not_lt h)]

theorem or_and_two_pow_ne (a b k : ℕ) (ha : a.testBit k = false) :
    decide ((a ||| b) &&& 2 ^ k ≠ 0) = b.testBit k := by
  rw [Nat.and_two_pow, Nat.testBit_or, ha]
  cases hbk : b.testBit k <;> simp

theorem encode_can_id_eq (arb : ℕ) (e r x : Bool) :
    encode_can_id arb e r x = arb ||| markerOr e r x := by
  cases e <;> cases r <;> cases x <;>
    simp [encode_can_id, markerOr, Nat.or_assoc, Nat.or_zero, Nat.zero_or]

theorem markerOr_low (e r x : Bool) (i : ℕ) (h : i < 29) :
    (markerOr e r x).testBit i = false := by
  have h31 : (CAN_EFF_FLAG).testBit i = false := by
    rw [show CAN_EFF_FLAG = 2 ^ 31 by norm_num [CAN_EFF_FLAG], Nat.testBit_two_pow]
    simp only [decide_eq_false_iff_not]
    omega
  have h30 : (CAN_RTR_FLAG).testBit i = false := by
    rw [show CAN_RTR_FLAG = 2 ^ 30 by norm_num [CAN_RTR_FLAG], Nat.testBit_two_pow]
    simp only [decide_eq_false_iff_not]
    omega
  have h29 : (CAN_ERR_FLAG).testBit i = false := by
    rw [show CAN_ERR_FLAG = 2 ^ 29 by norm_num [CAN_ERR_FLAG], Nat.testBit_two_pow]
    simp only [decide_eq_false_iff_not]
    omega
  cases e <;> cases r <;> cases x <;>
    simp [markerOr, Nat.testBit_or, h31, h30, h29, Nat.zero_testBit]

theorem markerOr_testBit31 (e r x : Bool) : (markerOr e r x).testBit 31 = e := by
  cases e <;> cases r <;> cases x <;> decide

theorem markerOr_testBit30 (e r x : Bool) : (markerOr e r x).testBit 30 = r := by
  cases e <;> cases r <;> cases x <;> decide

theorem markerOr_testBit29 (e r x : Bool) : (markerOr e r x).testBit 29 = x := by
  cases e <;> cases r <;> cases x <;> decide

theorem encode_arb (arb : ℕ) (e r x : Bool) (h : arb < 2 ^ 29) :
    encode_can_id arb e r x &&& CAN_EFF_MASK = arb := by
  rw [encode_can_id_eq, show CAN_EFF_MASK = 2 ^ 29 - 1 by norm_num [CAN_EFF_MASK]]
  exact or_and_mask_29 arb _ h (markerOr_low e r x)

theorem encode_ext (arb : ℕ) (e r x : Bool) (h : arb < 2 ^ 29) :
    decide (encode_can_id arb e r x &&& CAN_EFF_FLAG ≠ 0) = e := by
  rw [encode_can_id_eq, show CAN_EFF_FLAG = 2 ^ 31 by norm_num [CAN_EFF_FLAG],
    or_and_two_pow_ne _ _ 31 (testBit_false_of_lt arb 29 31 h (by norm_num)),
    markerOr_testBit31]

theorem encode_rtr (arb : ℕ) (e r x : Bool) (h : arb < 2 ^ 29) :
    decide (encode_can_id arb e r x &&& CAN_RTR_FLAG ≠ 0) = r := by
  rw [encode_can_id_eq, show CAN_RTR_FLAG = 2 ^ 30 by norm_num [CAN_RTR_FLAG],
    or_and_two_pow_ne _ _ 30 (testBit_false_of_lt arb 29 30 h (by norm_num)),
    markerOr_testBit30]

theorem encode_err (arb : ℕ) (e r x : Bool) (h : arb < 2 ^ 29) :
    decide (encode_can_id arb e r x &&& CAN_ERR_FLAG ≠ 0) = x := by
  rw [encode_can_id_eq, show CAN_ERR_FLAG = 2 ^ 29 by norm_num [CAN_ERR_FLAG],
    or_and_two_pow_ne _ _ 29 (testBit_false_of_lt arb 29 29 h (by norm_num)),
    markerOr_testBit29]

theorem flags_roundtrip (fd brs esi : Bool) :
    (decide (((if fd then GS_CAN_FLAG_FD else 0) ||| (if brs then GS_CAN_FLAG_BRS else 0) |||
        (if esi then GS_CAN_FLAG_ESI else 0)) &&& GS_CAN_FLAG_FD ≠ 0) = fd) ∧
    (decide (((if fd then GS_CAN_FLAG_FD else 0) ||| (if brs then GS_CAN_FLAG_BRS else 0) |||
        (if esi then GS_CAN_FLAG_ESI else 0)) &&& GS_CAN_FLAG_BRS ≠ 0) = brs) ∧
    (decide (((if fd then GS_CAN_FLAG_FD else 0) ||| (if brs then GS_CAN_FLAG_BRS else 0) |||
        (if esi then GS_CAN_FLAG_ESI else 0)) &&& GS_CAN_FLAG_ESI ≠ 0) = esi) := by
  cases fd <;> cases brs <;> cases esi <;> exact ⟨by decide, by decide, by decide⟩

/-- C1: for every message whose data length is at most the device
maximum (and whose arbitration identifier satisfies the data model's
29-bit range invariant), encoding to a native frame as `send` does and
decoding that frame back as the receive decoder does reproduces the
arbitration identifier, the extended-id/remote-frame/error-frame flags,
the FD/bit-rate-switch/error-state-indicator flags, and the payload
bytes exactly. -/
theorem send_recv_roundtrip (ch : Option String) (m : Message)
    (hid : m.arbitration_id < 2 ^ 29) (hlen : m.data.length ≤ 64) :
    (recvMessage ch (sendFrame m)).arbitration_id = m.arbitration_id ∧
    (recvMessage ch (sendFrame m)).is_extended_id = m.is_extended_id ∧
    (recvMessage ch (sendFrame m)).is_remote_frame = m.is_remote_frame ∧
    (recvMessage ch (sendFrame m)).is_error_frame = m.is_error_frame ∧
    (recvMessage ch (sendFrame m)).is_fd = m.is_fd ∧
    (recvMessage ch (sendFrame m)).bitrate_switch = m.bitrate_switch ∧
    (recvMessage ch (sendFrame m)).error_state_indicator = m.error_state_indicator ∧
    (recvMessage ch (sendFrame m)).data = m.data := by
  have hf := flags_roundtrip m.is_fd m.bitrate_switch m.error_state_indicator
  exact ⟨encode_arb m.arbitration_id m.is_extended_id m.is_remote_frame m.is_error_frame hid,
    encode_ext m.arbitration_id m.is_extended_id m.is_remote_frame m.is_error_frame hid,
    encode_rtr m.arbitration_id m.is_extended_id m.is_remote_frame m.is_error_frame hid,
    encode_err m.arbitration_id m.is_extended_id m.is_remote_frame m.is_error_frame hid,
    hf.1, hf.2.1, hf.2.2, List.take_length m.data⟩

/-- Witness for C1: the round-trip theorem applied to the concrete
message `mWitness`. -/
theorem send_recv_roundtrip_witness :
    (recvMessage none (sendFrame mWitness)).arbitration_id = mWitness.arbitration_id ∧
    (recvMessage none (sendFrame mWitness)).is_extended_id = mWitness.is_extended_id ∧
    (recvMessage none (sendFrame mWitness)).is_remote_frame = mWitness.is_remote_frame ∧
    (recvMessage none (sendFrame mWitness)).is_error_frame = mWitness.is_error_frame ∧
    (recvMessage none (sendFrame mWitness)).is_fd = mWitness.is_fd ∧
    (recvMessage none (sendFrame mWitness)).bitrate_switch = mWitness.bitrate_switch ∧
    (recvMessage none (sendFrame mWitness)).error_state_indicator
      = mWitness.error_state_indicator ∧
    (recvMessage none (sendFrame mWitness)).data = mWitness.data :=
  send_recv_roundtrip none mWitness (by decide) (by decide)

/-- C2: the claim (and the method's own docstring, line 112) says the
receive poll never raises; but `_recv_internal` wraps the transport read
in no exception handler, so a read that throws propagates the error to
the caller instead of yielding `(none, false)`.  This theorem evaluates
the embedded code at the failing input: a transport whose read raises
error 19, with `timeout = None`. -/
theorem recv_internal_read_exception_propagates :
    recv_internal (fun _ => ReadResult.throws ⟨19⟩) (some "gs_usb") none
      = Except.error ⟨19⟩ := rfl

/-- C3 counterexample: the positive timeout 1/5000 s (0.2 ms) is
normalized to 0 ms, a zero-length wait, refuting "the normalized wait
handed to the transport read is never a zero-length wait". -/
theorem timeout_normalization_cex :
    0 < (1 / 5000 : ℚ) ∧ timeout_ms (some (1 / 5000)) = 0 := by
  refine ⟨by norm_num, ?_⟩
  have hne : ((1 : ℚ) / 5000) ≠ 0 := by norm_num
  have h5 : ((1 : ℚ) / 5000) * 1000 = 1 / 5 := by norm_num
  have hfl : ⌊(1 / 5 : ℚ)⌋ = 0 := by
    rw [Int.floor_eq_iff]
    norm_num
  show (if (1 : ℚ) / 5000 = 0 then 1 else pyRound ((1 / 5000 : ℚ) * 1000)) = 0
  rw [if_neg hne, h5]
  unfold pyRound
  rw [rat_floor_eq_intFloor, hfl]
  norm_num

/-- C3 (amended): a `None` or zero timeout normalizes to the minimum
positive wait of 1 ms, and a positive timeout t normalizes to
`round(t*1000)` integer milliseconds (0.5 s becomes 500 ms); the
normalized wait is positive for every timeout above half a millisecond,
but positive timeouts of at most 0.0005 s can round down to a
zero-length wait. -/
theorem timeout_normalization_amended :
    timeout_ms none = 1 ∧
    timeout_ms (some 0) = 1 ∧
    timeout_ms (some (1 / 2)) = 500 ∧
    (∀ t : ℚ, t ≠ 0 → timeout_ms (some t) = pyRound (t * 1000)) ∧
    (∀ t : ℚ, 1 / 2000 < t → 1 ≤ timeout_ms (some t)) := by
  have heval : ∀ t : ℚ, t ≠ 0 → timeout_ms (some t) = pyRound (t * 1000) := by
    intro t ht
    show (if t = 0 then 1 else pyRound (t * 1000)) = pyRound (t * 1000)
    rw [if_neg ht]
  refine ⟨rfl, by norm_num [timeout_ms], ?_, heval, ?_⟩
  · have h500 : ((1 : ℚ) / 2) * 1000 = ((500 : ℤ) : ℚ) := by norm_num
    rw [heval (1 / 2) (by norm_num), h500, pyRound_intCast]
  · intro t ht
    have ht0 : t ≠ 0 := by
      intro h0
      rw [h0] at ht
      norm_num at ht
    rw [heval t ht0]
    exact one_le_pyRound (t * 1000) (by linarith)

/-- Witness for C3 (amended): the normalization equation applied at the
concrete positive timeout 25 s, and positivity of the normalized wait at
the concrete timeout 1 s. -/
theorem timeout_normalization_amended_witness :
    timeout_ms (some 25) = pyRound (25 * 1000) ∧ 1 ≤ timeout_ms (some 1) :=
  ⟨timeout_normalization_amended.2.2.2.1 25 (by norm_num),
   timeout_normalization_amended.2.2.2.2 1 (by norm_num)⟩

/-- C4: a decoded message is marked as a genuine bus reception (`is_rx`)
if and only if the native frame's echo identifier equals the reserved
"not an echo" sentinel, and every frame returned by a successful read is
returned to the caller (never filtered out), paired with the
filtering-already-applied indicator `false`. -/
theorem recv_echo_classification (ch : Option String) (f : GsUsbFrame) (t : Option ℚ) :
    ((recvMessage ch f).is_rx = true ↔ f.echo_id = GS_USB_NONE_ECHO_ID) ∧
    recv_internal (fun _ => ReadResult.frame f) ch t
      = Except.ok (some (recvMessage ch f), false) := by
  refine ⟨?_, rfl⟩
  simp [recvMessage]

/-- C5 counterexample: both selection strategies are supplied (index 0
together with bus 0, address unset), yet construction does not fail with
the mutual-exclusion configuration error: it performs the enumeration
and fails with the index-out-of-range error instead, because the
truthiness expression `(bus or address)` evaluates to `None`. -/
theorem init_mutual_exclusion_cex :
    gsUsbBus_init envNoDevices "gs_usb" 500000 none (some 0) (some 0) none none
      = (.error (.deviceIndexNotFound 0 0), [Effect.scan]) ∧
    InitError.deviceIndexNotFound 0 0 ≠ InitError.mutualExclusion :=
  ⟨rfl, by decide⟩

/-- C5 (amended): construction fails with the mutual-exclusion
configuration error, before any enumeration or lookup (the effect trace
is empty), whenever an ordinal index is supplied and the Python
truthiness expression `(bus or address)` is not `None` — i.e. bus is
present and nonzero, or bus is absent-or-zero and address is present.
Supplying both with a falsy bus and no address escapes the check. -/
theorem init_mutual_exclusion_amended (env : UsbEnv) (ch : String) (br : ℕ)
    (db : Option ℕ) (index bus address : Option ℕ) (fl : Option ℕ)
    (hidx : index.isSome = true) (hba : (busOr bus address).isSome = true) :
    gsUsbBus_init env ch br db index bus address fl
      = (.error .mutualExclusion, []) := by
  unfold gsUsbBus_init
  rw [if_pos ⟨hidx, hba⟩]

/-- Witness for C5 (amended): index 1 together with bus 2 fails with the
mutual-exclusion error and an empty effect trace. -/
theorem init_mutual_exclusion_amended_witness :
    gsUsbBus_init envNoDevices "gs_usb" 500000 none (some 1) (some 2) none none
      = (.error .mutualExclusion, []) :=
  init_mutual_exclusion_amended envNoDevices "gs_usb" 500000 none (some 1) (some 2) none none
    (by decide) (by decide)

/-- C6: when an ordinal index is supplied (and the bus/address pair
selects nothing, so the index selection path is taken) and the index is
at least the number of discovered devices, construction fails with the
device-not-found error after the single enumeration, reporting both the
requested index and the discovered count in the error and in its
message string. -/
theorem init_index_out_of_range (env : UsbEnv) (ch : String) (br : ℕ)
    (db : Option ℕ) (i : ℕ) (bus address : Option ℕ) (fl : Option ℕ)
    (hba : busOr bus address = none) (hcount : env.scan.length ≤ i) :
    gsUsbBus_init env ch br db (some i) bus address fl
      = (.error (.deviceIndexNotFound i env.scan.length), [Effect.scan]) ∧
    (InitError.deviceIndexNotFound i env.scan.length).message
      = "Cannot find device " ++ toString i ++ ". Devices found: "
        ++ toString env.scan.length := by
  refine ⟨?_, rfl⟩
  have hcond : ¬((some i : Option ℕ).isSome ∧ (busOr bus address).isSome) := by
    rw [hba]
    simp
  unfold gsUsbBus_init
  rw [if_neg hcond]
  exact if_pos hcount

/-- Witness for C6: index 5 with no devices discovered fails with the
device-not-found error reporting index 5 and count 0. -/
theorem init_index_out_of_range_witness :
    gsUsbBus_init envNoDevices "gs_usb" 500000 none (some 5) none none none
      = (.error (.deviceIndexNotFound 5 0), [Effect.scan]) :=
  (init_index_out_of_range envNoDevices "gs_usb" 500000 none 5 none none none rfl
    (by decide)).1

/-- C7 counterexample: with a device found and a nominal-bitrate
application that raises transport error 5, construction fails with the
propagated transport error itself — not with any of the constructor's
`CanInitializationError` raises — refuting "any failure …​ causes
construction to fail with InitializationError". -/
theorem init_bitrate_failure_cex :
    (gsUsbBus_init envBitrateFails "gs_usb" 500000 none none none none none).1
      = Except.error (.usb ⟨5⟩) ∧
    (InitError.usb ⟨5⟩).isCanInitializationError = false :=
  ⟨rfl, rfl⟩

/-- C7 (amended): once a device is selected, a failure while applying
the nominal bitrate, the data-phase bitrate, or the start command makes
construction fail with the underlying transport error propagated
unchanged (it is not wrapped into the `CanInitializationError` class);
the nominal bitrate is applied unconditionally, and the data-phase
bitrate is applied if and only if a data bitrate was supplied. -/
theorem init_configurator_amended (env : UsbEnv) (ch : String) (br : ℕ)
    (db : Option ℕ) (fl : Option ℕ) (d : ℕ)
    (hfind : env.find none none = some d) :
    (∀ e, env.set_bitrate d br false = .error e →
      (gsUsbBus_init env ch br db none none none fl).1 = .error (.usb e) ∧
      (InitError.usb e).isCanInitializationError = false) ∧
    (∀ dbv e, db = some dbv → env.set_bitrate d br false = .ok () →
      env.set_bitrate d dbv true = .error e →
      (gsUsbBus_init env ch br db none none none fl).1 = .error (.usb e)) ∧
    (∀ e, env.set_bitrate d br false = .ok () →
      (∀ dbv, db = some dbv → env.set_bitrate d dbv true = .ok ()) →
      env.start d fl = .error e →
      (gsUsbBus_init env ch br db none none none fl).1 = .error (.usb e)) ∧
    (Effect.set_bitrate br false ∈ (gsUsbBus_init env ch br db none none none fl).2) ∧
    (db = none → ∀ b, Effect.set_bitrate b true ∉
      (gsUsbBus_init env ch br db none none none fl).2) ∧
    (∀ dbv, db = some dbv → env.set_bitrate d br false = .ok () →
      Effect.set_bitrate dbv true ∈ (gsUsbBus_init env ch br db none none none fl).2) := by
  have hinit : gsUsbBus_init env ch br db none none none fl
      = configure env d ch br db fl [Effect.find none none] := by
    unfold gsUsbBus_init
    rw [if_neg (by simp)]
    simp [hfind]
  refine ⟨?_, ?_, ?_, ?_, ?_, ?_⟩
  · intro e he
    rw [hinit]
    simp [configure, he, InitError.isCanInitializationError]
  · intro dbv e hdb h1 h2
    rw [hinit]
    simp [configure, hdb, h1, h2]
  · intro e h1 h2 h3
    rw [hinit]
    rcases hdb : db with _ | dbv
    · simp [configure, h1, h3]
    · simp [configure, hdb, h1, h2 dbv hdb, h3]
  · rw [hinit]
    rcases h1 : env.set_bitrate d br false with e | u
    · simp [configure, h1]
    · rcases hdb : db with _ | dbv
      · rcases h3 : env.start d fl with e | v <;> simp [configure, h1, h3]
      · rcases h2 : env.set_bitrate d dbv true with e | v
        · simp [configure, hdb, h1, h2]
        · rcases h3 : env.start d fl with e | w <;> simp [configure, hdb, h1, h2, h3]
  · intro hdb b
    rw [hinit]
    rcases h1 : env.set_bitrate d br false with e | u
    · simp [configure, hdb, h1]
    · rcases h3 : env.start d fl with e | v <;> simp [configure, hdb, h1, h3]
  · intro dbv hdb h1
    rw [hinit]
    rcases h2 : env.set_bitrate d dbv true with e | u
    · simp [configure, hdb, h1, h2]
    · rcases h3 : env.start d fl with e | v <;> simp [configure, hdb, h1, h2, h3]

/-- Witness for C7 (amended): in the environment whose every bitrate
application raises transport error 5, construction fails with exactly
that propagated transport error, and the nominal bitrate application is
in the effect trace. -/
theorem init_configurator_amended_witness :
    (gsUsbBus_init envBitrateFails "gs_usb" 500000 none none none none none).1
      = Except.error (.usb ⟨5⟩) ∧
    Effect.set_bitrate 500000 false
      ∈ (gsUsbBus_init envBitrateFails "gs_usb" 500000 none none none none none).2 := by
  have h := init_configurator_amended envBitrateFails "gs_usb" 500000 none none 7 rfl
  exact ⟨(h.1 ⟨5⟩ rfl).1, h.2.2.2.1⟩

/-- C8: in every shutdown call, the base-class (framework-level) shutdown
runs first and the device stop command is issued only afterwards,
regardless of the device's running state. -/
theorem shutdown_order (running : Bool) :
    gsUsbBus_shutdown running = [ShutdownEffect.base_shutdown, ShutdownEffect.stop] := rfl

/-- C9: supplying both selection strategies with bus 0 and address unset
does not raise the mutual-exclusion error: the constructor proceeds with
ordinal-index selection (enumeration, bitrate, start, base registration)
and succeeds, because the exclusivity check tests the truthiness
expression `(bus or address)` rather than parameter presence. -/
theorem init_truthiness_gap :
    gsUsbBus_init envOneDevice "gs_usb" 500000 none (some 0) (some 0) none none
      = (.ok { gs_usb := 7, channel_info := "gs_usb" },
         [Effect.scan, Effect.set_bitrate 500000 false, Effect.start none,
          Effect.base_init]) := rfl

/-- C10: for every frame whose declared length is within its payload
buffer, the decoded message's data is exactly the first `frame.length`
bytes of the buffer — same length, same bytes — and its declared length
(`dlc`) equals `frame.length`; bytes beyond the declared length are
never exposed. -/
theorem recv_data_exact (ch : Option String) (f : GsUsbFrame)
    (h : f.length ≤ f.data.length) :
    (recvMessage ch f).dlc = f.length ∧
    ((recvMessage ch f).data).length = f.length ∧
    ∀ i, i < f.length → ((recvMessage ch f).data)[i]? = f.data[i]? := by
  refine ⟨rfl, ?_, ?_⟩
  · simp [recvMessage, List.length_take, Nat.min_eq_left h]
  · intro i hi
    simp [recvMessage, List.getElem?_take, hi]

/-- Witness for C10: the decoder theorem applied to the concrete frame
`fWitness` (three buffer bytes, declared length two). -/
theorem recv_data_exact_witness :
    (recvMessage none fWitness).dlc = 2 ∧
    ((recvMessage none fWitness).data).length = 2 ∧
    ((recvMessage none fWitness).data)[0]? = some 17 := by
  have h := recv_data_exact none fWitness (by decide)
  refine ⟨h.1, h.2.1, ?_⟩
  rw [h.2.2 0 (by decide)]
  decide

end GsUsbSpec
